import Mathlib

/-!
# Verification of the LP-profit-prediction pool filter

A shallow embedding, in Lean 4, of the numeric and control logic of
`src/app.js` (pool significance filtering, APR estimation, pagination,
caching, startup environment check) together with theorems checking the
repository's specification against it.

## Modelling conventions

* JavaScript numbers are modelled by `JSNum`: either an exact rational
  (`JSNum.num q`), one of the two infinities, or `NaN`.  Finite arithmetic
  is exact rational arithmetic; IEEE-754 rounding of doubles is outside the
  model, while the special values (`NaN`, `Infinity`, `-Infinity`) and their
  propagation through `*`, `/` and comparisons follow the JavaScript rules.
  Numeric literals of the program (`50000`, `0.05`, …) are read as the exact
  rationals they denote.
* Fallible JavaScript evaluation (thrown exceptions) is modelled with
  `Except JSException`.
* The network (`request` against the subgraph) is modelled by an oracle
  list of page responses, each either a page of pools or a thrown exception.
  `await delay(...)` has no observable effect in this model and is omitted.
-/

/-- A JavaScript exception, by constructor name and message. -/
inductive JSException where
  | error (msg : String)
  | typeError (msg : String)
  | referenceError (msg : String)
deriving DecidableEq, Repr

/-- A JavaScript number: an exact rational, `Infinity`, `-Infinity`, or `NaN`. -/
inductive JSNum where
  | num (q : ℚ)
  | inf
  | neginf
  | nan
deriving DecidableEq, Repr

namespace JSNum

/-- JavaScript `<` on numbers: any comparison involving `NaN` is false. -/
def ltB : JSNum → JSNum → Bool
  | nan, _ => false
  | _, nan => false
  | neginf, neginf => false
  | neginf, _ => true
  | _, neginf => false
  | inf, _ => false
  | _, inf => true
  | num a, num b => decide (a < b)

/-- JavaScript `<=` on numbers: any comparison involving `NaN` is false. -/
def leB : JSNum → JSNum → Bool
  | nan, _ => false
  | _, nan => false
  | neginf, _ => true
  | _, neginf => false
  | _, inf => true
  | inf, _ => false
  | num a, num b => decide (a ≤ b)

/-- JavaScript truthiness of a number: `0` and `NaN` are falsy. -/
def truthy : JSNum → Bool
  | num q => decide (q ≠ 0)
  | inf => true
  | neginf => true
  | nan => false

/-- JavaScript `isNaN` on a value that is already a number. -/
def isNaNB : JSNum → Bool
  | nan => true
  | _ => false

/-- Whether the number is finite (neither `NaN` nor an infinity). -/
def finite : JSNum → Bool
  | num _ => true
  | _ => false

/-- JavaScript multiplication, with the IEEE special-value rules
(`0 * ±Infinity = NaN`, `NaN` absorbs) and exact rational arithmetic on
finite operands. -/
def mul : JSNum → JSNum → JSNum
  | nan, _ => nan
  | _, nan => nan
  | inf, inf => inf
  | inf, neginf => neginf
  | neginf, inf => neginf
  | neginf, neginf => inf
  | inf, num q => if q = 0 then nan else if 0 < q then inf else neginf
  | num q, inf => if q = 0 then nan else if 0 < q then inf else neginf
  | neginf, num q => if q = 0 then nan else if 0 < q then neginf else inf
  | num q, neginf => if q = 0 then nan else if 0 < q then neginf else inf
  | num a, num b => num (a * b)

/-- JavaScript division, with the IEEE special-value rules
(`x / 0` is `±Infinity` for `x ≠ 0` and `NaN` for `x = 0`,
`±Infinity / ±Infinity = NaN`, finite `/ ±Infinity = 0`, `NaN` absorbs)
and exact rational arithmetic on finite operands.  The model has no
negative zero. -/
def div : JSNum → JSNum → JSNum
  | nan, _ => nan
  | _, nan => nan
  | inf, inf => nan
  | inf, neginf => nan
  | neginf, inf => nan
  | neginf, neginf => nan
  | inf, num q => if 0 ≤ q then inf else neginf
  | neginf, num q => if 0 ≤ q then neginf else inf
  | num _, inf => num 0
  | num _, neginf => num 0
  | num a, num b =>
      if b = 0 then (if a = 0 then nan else if 0 < a then inf else neginf)
      else num (a / b)

end JSNum

/-- A token as returned by the pool listing query
(`graphqlQuery.js`: `symbol`, `id`, `name`, `decimals`). -/
structure Token where
  id : String
  symbol : String
  name : String
  decimals : JSNum
deriving DecidableEq, Repr

/-- A pool record as returned by the pool listing query
(`graphqlQuery.js`): identifier, the two tokens, `feeTier`, `liquidity`,
`volumeUSD`, `txCount`, `totalValueLockedUSD`. -/
structure Pool where
  id : String
  token0 : Token
  token1 : Token
  feeTier : JSNum
  liquidity : JSNum
  volumeUSD : JSNum
  txCount : JSNum
  totalValueLockedUSD : JSNum
deriving DecidableEq, Repr

/-- `app.js` line 24: minimum liquidity (TVL) threshold. -/
def liquidityThreshold : ℚ := 50000

/-- `app.js` line 25: minimum volume threshold. -/
def volumeThreshold : ℚ := 1000

/-- `app.js` line 26: minimum APR percentage. -/
def aprPercentageThreshold : ℚ := 5 / 100

/-- `app.js` line 27: maximum APR percentage. -/
def aprMaxValue : ℚ := 200

/-- `app.js` line 30: overall pool-count limit. -/
def LIMIT : Nat := 100000

/-- Modelled from the spec: `app.js` imports `calculateAPR` from
`./aprCalculator.js`, a file that is not among the sources; only its call
sites are.  The spec (§4.1) defines the estimator: convert the fee tier to
a fractional rate (`feeTier / 1,000,000`), multiply by the 24h volume to
get daily fee revenue, divide by liquidity to get a daily yield fraction,
then multiply by 365 and by 100 to annualize as a percentage. -/
def calculateAPR (feeTier volumeUSD liquidity : JSNum) : JSNum :=
  ((((feeTier.div (.num 1000000)).mul volumeUSD).div liquidity).mul
    (.num 365)).mul (.num 100)

/-- `app.js` line 65: `(pool.liquidity > 0) ? pool.liquidity : 1` —
substitute `1` for the liquidity whenever it is not strictly positive
(preventing division by zero in the APR calculation). -/
def substLiquidity (l : JSNum) : JSNum :=
  if JSNum.ltB (.num 0) l then l else .num 1

/-- The APR that `isPoolSignificant` computes for a pool
(`app.js` lines 65-66). -/
def aprOf (pool : Pool) : JSNum :=
  calculateAPR pool.feeTier pool.volumeUSD (substLiquidity pool.liquidity)

/-- `app.js` lines 59-86, `isPoolSignificant`: the pool is significant when
its daily volume is truthy and not `NaN`, its TVL meets the liquidity
threshold, its daily volume meets the volume threshold, and the computed
APR lies in `[aprPercentageThreshold, aprMaxValue)` and is not `Infinity`. -/
def isPoolSignificant (pool : Pool) : Bool :=
  let totalValueLockedUSD := pool.totalValueLockedUSD
  let dailyVolumeUSD := pool.volumeUSD
  let apr := aprOf pool
  dailyVolumeUSD.truthy &&
  !dailyVolumeUSD.isNaNB &&
  JSNum.leB (.num liquidityThreshold) totalValueLockedUSD &&
  JSNum.leB (.num volumeThreshold) dailyVolumeUSD &&
  JSNum.leB (.num aprPercentageThreshold) apr &&
  JSNum.ltB apr (.num aprMaxValue) &&
  !(apr = JSNum.inf)

/-- `isPoolSignificant` applied to a possibly-`null` argument (as happens on
entries of a reloaded cache): with `pool = null`, the first statement of the
function body, `pool.totalValueLockedUSD`, throws a `TypeError` (property
access on `null`). -/
def isPoolSignificantJS : Option Pool → Except JSException Bool
  | none => .error (.typeError "Cannot read properties of null (reading 'totalValueLockedUSD')")
  | some p => .ok (isPoolSignificant p)

/-! ## The pagination loop of `fetchAllPools` (`app.js` lines 93-143)

The network is abstracted by an oracle: the list of responses the subgraph
endpoint gives to the successive `request` calls, each either a page of
pools or a thrown exception.  If the loop asks for a page beyond the end
of the oracle the run is outside the model (`none`). -/

/-- One response of the pool listing service: a page of pools, or a thrown
network error. -/
abbrev PageResp := Except JSException (List Pool)

/-- `app.js` line 97: number of pools fetched per request. -/
def batchSize : Nat := 50

/-- The mutable locals of `fetchAllPools`: `allPools`, `lastPoolId`,
`significantPoolsSet` (a JS `Set`, kept in insertion order),
`significantPools` and `fetchMore`. -/
structure FetchState where
  allPools : List Pool
  lastPoolId : String
  significantPoolsSet : List String
  significantPools : List Pool
  fetchMore : Bool
deriving DecidableEq, Repr

/-- The state of `fetchAllPools` at entry (`app.js` lines 94-99). -/
def initFetchState : FetchState :=
  { allPools := [], lastPoolId := "", significantPoolsSet := [],
    significantPools := [], fetchMore := true }

/-- The body of the `for (const pool of data.pools)` loop for one pool
(`app.js` lines 110-127): push the pool onto `allPools`, update
`lastPoolId`, then evaluate `isSignificantPool(pool)`.  No binding named
`isSignificantPool` exists in the module (the filter defined at line 59 is
`isPoolSignificant`, and the only imports are `request`, `getPoolsQuery`,
`fetchTokenPrices`, `calculateAPR`, `fs`, `config` and `path`), so this
evaluation throws a `ReferenceError`; the rest of the body — the duplicate
check against `significantPoolsSet`, the pushes, and the limit check — is
unreachable. -/
def processPool (s : FetchState) (pool : Pool) : Except (JSException × FetchState) FetchState :=
  let s' := { s with allPools := s.allPools ++ [pool], lastPoolId := pool.id }
  Except.error (.referenceError "isSignificantPool is not defined", s')

/-- The `for (const pool of data.pools)` loop over one fetched page
(`app.js` lines 110-128), threading the state through `processPool` and
honouring the `break` once `allPools.length >= limit`. -/
def processPools (s : FetchState) (pools : List Pool) (limit : Nat) :
    Except (JSException × FetchState) FetchState :=
  match pools with
  | [] => .ok s
  | pool :: rest =>
    match processPool s pool with
    | .error es => .error es
    | .ok s' =>
      if limit ≤ s'.allPools.length then .ok { s' with fetchMore := false }
      else processPools s' rest limit

/-- What a finished run of the `while` loop reports: normal exit, or an
exception caught by the surrounding `try`/`catch`. -/
inductive LoopOutcome where
  | finished
  | caught (e : JSException)
deriving DecidableEq, Repr

/-- The `while (fetchMore && allPools.length < limit)` loop of
`fetchAllPools` (`app.js` lines 102-137): check the loop condition, request
the next page from the oracle, process its pools, clear `fetchMore` on a
short page, and repeat.  Any exception — a failed `request` or the
`ReferenceError` from `processPool` — ends the run with outcome `caught`
(the `catch` at line 138 only logs).  The returned list is the unconsumed
suffix of the oracle.  `none` means the oracle was exhausted while the loop
still wanted a page, i.e. the oracle does not cover this run. -/
def runFetchLoop (oracle : List PageResp) (s : FetchState) (limit : Nat) :
    Option (LoopOutcome × FetchState × List PageResp) :=
  if s.fetchMore = true ∧ s.allPools.length < limit then
    match oracle with
    | [] => none
    | .error e :: rest => some (.caught e, s, rest)
    | .ok pools :: rest =>
      match processPools s pools limit with
      | .error (e, s') => some (.caught e, s', rest)
      | .ok s' =>
        let s'' := if pools.length < batchSize then { s' with fetchMore := false } else s'
        runFetchLoop rest s'' limit
  else
    some (.finished, s, oracle)

/-- `app.js` lines 93-143, `fetchAllPools`: run the pagination loop from the
initial state and return `significantPools` — the `return` at line 142 is
reached both on normal exit and after the `catch`. -/
def fetchAllPools (oracle : List PageResp) (limit : Nat) : Option (List Pool) :=
  (runFetchLoop oracle initFetchState limit).map (fun r => r.2.1.significantPools)

/-! ## Startup environment check (`app.js` lines 13-18) -/

/-- `app.js` line 13: the names of the required environment variables. -/
def req_env : List String :=
  ["UNISWAP_V3_SUBGRAPH_URL", "COINGECKO_API_URL", "CACHE_FILENAME"]

/-- JavaScript truthiness of `process.env[k]`: an unset variable
(`undefined`) and the empty string are falsy. -/
def jsTruthyStr : Option String → Bool
  | none => false
  | some s => decide (s ≠ "")

/-- `app.js` lines 14-18: `for (env in req_env) { if (!process.env[env])
throw ... }`.  `for`/`in` over an array enumerates its KEYS — the index
strings `"0"`, `"1"`, `"2"` — not its elements, so each iteration looks up
`process.env["0"]`, `process.env["1"]`, `process.env["2"]`.  (In a
strict-mode ES module the undeclared loop variable `env` additionally
raises a `ReferenceError` before any lookup; under non-strict semantics,
modelled here, the lookup of key `"0"` fails instead.  Either way the
check throws even when every variable named in `req_env` is set.) -/
def checkRequiredEnv (environ : String → Option String) : Except JSException Unit :=
  go ((List.range req_env.length).map (fun i => toString i))
where
  go : List String → Except JSException Unit
    | [] => .ok ()
    | k :: rest =>
      if jsTruthyStr (environ k) then go rest
      else .error (.error ("Missing required environment variable: " ++ k))

/-- An environment in which exactly the three variables named in `req_env`
are set (to a non-empty value) — the configuration the spec calls
complete. -/
def fullEnviron : String → Option String :=
  fun k => if k ∈ req_env then some "set" else none

/-! ## Cache store (`app.js` lines 146-169)

The cache file is modelled in parsed form: `none` when the file does not
exist, `some (.error e)` when it exists but reading or parsing it throws,
and `some (.ok v)` when it exists and `JSON.parse` yields `v`. -/

/-- A JSON value, as produced by `JSON.parse`. -/
inductive JValue where
  | jnull
  | jbool (b : Bool)
  | jnum (q : ℚ)
  | jstr (s : String)
  | jarr (elems : List JValue)
  | jobj (fields : List (String × JValue))

/-- The filesystem as seen through the cache path. -/
abbrev CacheFS := Option (Except JSException JValue)

/-- `app.js` lines 146-153, `saveToCache`: serialize the given array with
`JSON.stringify` and overwrite the cache file with it, ignoring whatever
the file held before.  (The storage is modelled in parsed form, which is
faithful because stringifying a `JValue`-representable array re-parses to
exactly that array; a write error would be caught and logged, the model
covers the successful write.) -/
def saveToCache (items : List JValue) (_fs : CacheFS) : CacheFS :=
  some (.ok (.jarr items))

/-- `app.js` lines 156-169, `loadFromCache`: if the cache file exists, read
and parse it and return the result; if it does not exist, log and return
`null`; if reading or parsing throws, the `catch` logs and returns
`null`. -/
def loadFromCache (fs : CacheFS) : JValue :=
  match fs with
  | none => .jnull
  | some (.error _) => .jnull
  | some (.ok v) => v

/-- How `JSON.stringify` serializes a JavaScript number: finite numbers
verbatim, `NaN` and the infinities as `null`. -/
def encodeJSNum : JSNum → JValue
  | .num q => .jnum q
  | _ => .jnull

/-- The JSON serialization of a `Token`, fields in the order of the
GraphQL query (`graphqlQuery.js`). -/
def encodeToken (t : Token) : JValue :=
  .jobj [("symbol", .jstr t.symbol), ("id", .jstr t.id),
         ("name", .jstr t.name), ("decimals", encodeJSNum t.decimals)]

/-- The JSON serialization of a `Pool`, fields in the order of the
GraphQL query (`graphqlQuery.js`). -/
def encodePool (p : Pool) : JValue :=
  .jobj [("id", .jstr p.id), ("token0", encodeToken p.token0),
         ("token1", encodeToken p.token1), ("feeTier", encodeJSNum p.feeTier),
         ("liquidity", encodeJSNum p.liquidity),
         ("volumeUSD", encodeJSNum p.volumeUSD),
         ("txCount", encodeJSNum p.txCount),
         ("totalValueLockedUSD", encodeJSNum p.totalValueLockedUSD)]

/-- Read a serialized number back.  A `null` written for `NaN` or an
infinity does not decode to a number: this is precisely the
floating-point serialization loss of `JSON.stringify`. -/
def decodeJSNum : JValue → Option JSNum
  | .jnum q => some (.num q)
  | _ => none

/-- Read a serialized `Token` back. -/
def decodeToken : JValue → Option Token
  | .jobj [("symbol", .jstr s), ("id", .jstr i),
           ("name", .jstr n), ("decimals", d)] =>
      (decodeJSNum d).map (fun dq => ⟨i, s, n, dq⟩)
  | _ => none

/-- Read a serialized `Pool` back. -/
def decodePool : JValue → Option Pool
  | .jobj [("id", .jstr i), ("token0", t0), ("token1", t1),
           ("feeTier", ft), ("liquidity", lq), ("volumeUSD", vol),
           ("txCount", tx), ("totalValueLockedUSD", tvl)] => do
      let t0 ← decodeToken t0
      let t1 ← decodeToken t1
      let ft ← decodeJSNum ft
      let lq ← decodeJSNum lq
      let vol ← decodeJSNum vol
      let tx ← decodeJSNum tx
      let tvl ← decodeJSNum tvl
      pure ⟨i, t0, t1, ft, lq, vol, tx, tvl⟩
  | _ => none

/-- Read a serialized list of pools back, element by element. -/
def decodePools : List JValue → Option (List Pool)
  | [] => some []
  | v :: rest =>
    match decodePool v, decodePools rest with
    | some p, some ps => some (p :: ps)
    | _, _ => none

/-- Read a serialized pool list back. -/
def decodePoolList : JValue → Option (List Pool)
  | .jarr elems => decodePools elems
  | _ => none

/-- All numeric fields of the token are finite. -/
def tokenFinite (t : Token) : Bool := t.decimals.finite

/-- All numeric fields of the pool (and of its tokens) are finite, so that
JSON serialization loses nothing. -/
def poolFinite (p : Pool) : Bool :=
  tokenFinite p.token0 && tokenFinite p.token1 && p.feeTier.finite &&
  p.liquidity.finite && p.volumeUSD.finite && p.txCount.finite &&
  p.totalValueLockedUSD.finite

/-! ## `formatBigNumber` (`app.js` lines 34-48)

`Number.prototype.toFixed` is modelled at exact rational precision:
round half away from zero at the requested number of decimals. -/

/-- Decimal rendering of an exact rational with `d` digits after the
point, rounding half away from zero — the idealization of `toFixed`. -/
def toFixedQ (q : ℚ) (d : Nat) : String :=
  let m : ℕ := (⌊|q| * (10 : ℚ) ^ d + 1 / 2⌋).toNat
  let ip := m / 10 ^ d
  let fp := m % 10 ^ d
  let sign := if q < 0 then "-" else ""
  if d = 0 then sign ++ toString ip
  else
    let fs := toString fp
    sign ++ toString ip ++ "." ++
      String.mk (List.replicate (d - fs.length) '0') ++ fs

/-- `toFixed` on a JavaScript number: `NaN` and the infinities render as
their names. -/
def toFixedJS (n : JSNum) (d : Nat) : String :=
  match n with
  | .num q => toFixedQ q d
  | .inf => "Infinity"
  | .neginf => "-Infinity"
  | .nan => "NaN"

/-- `Math.log10(Math.abs(q)) / 3 | 0` for a finite nonzero `q`: the
truncation toward zero of `log10 |q| / 3`, computed exactly —
`⌊⌊log10 |q|⌋ / 3⌋` for `|q| ≥ 1` and `-⌊⌊log10 (1/|q|)⌋ / 3⌋`
otherwise. -/
def jsTier (q : ℚ) : Int :=
  let a := |q|
  if 1 ≤ a then ((Nat.log 10 ⌊a⌋.toNat / 3 : ℕ) : Int)
  else -((Nat.log 10 ⌊1 / a⌋.toNat / 3 : ℕ) : Int)

/-- `suffixes[tier]` (`app.js` line 43): out-of-range indexing yields
`undefined`, which string concatenation renders as `"undefined"`. -/
def suffixAt (tier : Int) : String :=
  if tier < 0 then "undefined"
  else ["", "K", "M", "B", "T", "P", "E"].getD tier.toNat "undefined"

/-- `app.js` lines 34-48, `formatBigNumber`: return `"N/A"` for falsy or
`NaN` input (line 35 — note `0` is falsy); otherwise scale by the tier of
a thousand and render with the suffix.  For `±Infinity` the bitwise-or
truncation gives tier `ToInt32(Infinity) = 0`, so `toFixed` renders the
infinity itself.  The source's `decimals` parameter defaults to `2`; here
it is always passed explicitly. -/
def formatBigNumber (number : JSNum) (decimals : Nat) : String :=
  if !number.truthy || number.isNaNB then "N/A"
  else
    match number with
    | .num q =>
      let tier := jsTier q
      if tier = 0 then toFixedQ q decimals
      else toFixedQ (q / (10 : ℚ) ^ (3 * tier)) decimals ++ suffixAt tier
    | n => toFixedJS n decimals

/-! ## Concrete pools used to evaluate the code at specific inputs -/

/-- A pool meeting every significance threshold: TVL exactly at the 50,000
boundary, volume exactly at the 1,000 boundary, and an APR of
`(1 / 10^6 × 1000 / 1) × 365 × 100 = 36.5`, inside `[0.05, 200)`. -/
def poolSig : Pool :=
  { id := "a", token0 := ⟨"0xa0", "A0", "Token A0", .num 18⟩,
    token1 := ⟨"0xa1", "A1", "Token A1", .num 6⟩,
    feeTier := .num 1, liquidity := .num 1, volumeUSD := .num 1000,
    txCount := .num 10, totalValueLockedUSD := .num 50000 }

/-- A pool rejected by the TVL threshold (`totalValueLockedUSD = 100`). -/
def poolLowTvl : Pool :=
  { id := "b", token0 := ⟨"0xb0", "B0", "Token B0", .num 18⟩,
    token1 := ⟨"0xb1", "B1", "Token B1", .num 6⟩,
    feeTier := .num 1, liquidity := .num 1, volumeUSD := .num 1000,
    txCount := .num 10, totalValueLockedUSD := .num 100 }

/-- A pool rejected by the volume conditions (`volumeUSD = 0` is falsy). -/
def poolZeroVol : Pool :=
  { id := "c", token0 := ⟨"0xc0", "C0", "Token C0", .num 18⟩,
    token1 := ⟨"0xc1", "C1", "Token C1", .num 6⟩,
    feeTier := .num 1, liquidity := .num 1, volumeUSD := .num 0,
    txCount := .num 10, totalValueLockedUSD := .num 50000 }

/-- A single fetched page of three pools of which exactly one (`poolSig`)
is significant. -/
def page3 : List Pool := [poolSig, poolLowTvl, poolZeroVol]

/-! ## Helper lemmas -/

set_option linter.unnecessarySeqFocus false in
/-- Multiplying anything by `Infinity` never yields a finite number. -/
theorem JSNum.mul_inf_not_finite (x : JSNum) : (x.mul .inf).finite = false := by
  cases x <;> simp [JSNum.mul, JSNum.finite] <;> split_ifs <;> simp [JSNum.finite]

set_option linter.unnecessarySeqFocus false in
/-- Dividing a non-finite number never yields a finite number. -/
theorem JSNum.div_not_finite (x y : JSNum) (h : x.finite = false) :
    (x.div y).finite = false := by
  cases x <;> cases y <;>
    simp_all [JSNum.div, JSNum.finite] <;> split_ifs <;> simp [JSNum.finite]

/-- Multiplying a non-finite number by a nonzero finite constant never
yields a finite number. -/
theorem JSNum.mul_num_not_finite (x : JSNum) (c : ℚ) (h : x.finite = false)
    (hc : c ≠ 0) : (x.mul (.num c)).finite = false := by
  cases x <;> simp_all [JSNum.mul, JSNum.finite] <;> split_ifs <;>
    simp_all [JSNum.finite]

/-- A non-finite APR fails the window `[0.05, 200)`: `NaN` fails both
comparisons, `-Infinity` fails the lower bound, `Infinity` the upper. -/
theorem JSNum.not_finite_apr_fails (a : JSNum) (h : a.finite = false) :
    JSNum.leB (.num (5 / 100)) a = false ∨ JSNum.ltB a (.num 200) = false := by
  cases a with
  | num q => simp [JSNum.finite] at h
  | inf => exact Or.inr rfl
  | neginf => exact Or.inl rfl
  | nan => exact Or.inl rfl

/-- When the pool's volume is `Infinity`, the computed APR is not finite. -/
theorem aprOf_not_finite_of_volume_inf (pool : Pool) (hv : pool.volumeUSD = .inf) :
    (aprOf pool).finite = false := by
  unfold aprOf calculateAPR
  rw [hv]
  apply JSNum.mul_num_not_finite _ _ _ (by norm_num)
  apply JSNum.mul_num_not_finite _ _ _ (by norm_num)
  apply JSNum.div_not_finite
  exact JSNum.mul_inf_not_finite _

/-! ## Claim theorems -/

/-- C1: for every pool record, the significance filter returns true if and
only if: the pool's `volumeUSD` is a finite nonzero number,
`totalValueLockedUSD ≥ 50,000` (boundary inclusive), `volumeUSD ≥ 1,000`,
the APR computed from `(feeTier, volumeUSD, liquidity substituted by 1 when
not positive)` is `≥ 0.05` and strictly `< 200`, and that APR is not
`Infinity`. -/
theorem isPoolSignificant_iff_thresholds (pool : Pool) :
    isPoolSignificant pool = true ↔
      ((∃ q : ℚ, pool.volumeUSD = .num q ∧ q ≠ 0) ∧
       JSNum.leB (.num 50000) pool.totalValueLockedUSD = true ∧
       JSNum.leB (.num 1000) pool.volumeUSD = true ∧
       JSNum.leB (.num (5 / 100)) (aprOf pool) = true ∧
       JSNum.ltB (aprOf pool) (.num 200) = true ∧
       aprOf pool ≠ JSNum.inf) := by
  unfold isPoolSignificant
  simp only [liquidityThreshold, volumeThreshold, aprPercentageThreshold, aprMaxValue,
    Bool.and_eq_true, Bool.not_eq_true', decide_eq_false_iff_not]
  cases hv : pool.volumeUSD with
  | num q =>
    constructor
    · rintro ⟨⟨⟨⟨⟨⟨ht, -⟩, htvl⟩, hvol⟩, hlo⟩, hhi⟩, hne⟩
      simp only [JSNum.truthy, decide_eq_true_eq] at ht
      exact ⟨⟨q, rfl, ht⟩, htvl, hvol, hlo, hhi, by simpa using hne⟩
    · rintro ⟨⟨q', hq', hne'⟩, htvl, hvol, hlo, hhi, hne⟩
      obtain rfl : q = q' := by simpa using hq'
      refine ⟨⟨⟨⟨⟨⟨?_, ?_⟩, htvl⟩, hvol⟩, hlo⟩, hhi⟩, by simpa using hne⟩
      · simp [JSNum.truthy, hne']
      · simp [JSNum.isNaNB]
  | inf =>
    have hnf : (aprOf pool).finite = false := aprOf_not_finite_of_volume_inf pool hv
    constructor
    · rintro ⟨⟨⟨⟨⟨⟨-, -⟩, -⟩, -⟩, hlo⟩, hhi⟩, -⟩
      rcases JSNum.not_finite_apr_fails _ hnf with hbad | hbad <;>
        simp_all
    · rintro ⟨⟨q', hq', -⟩, -⟩
      exact absurd hq' (by simp)
  | neginf =>
    constructor
    · rintro ⟨⟨⟨⟨⟨⟨-, -⟩, -⟩, hvol⟩, -⟩, -⟩, -⟩
      simp [JSNum.leB] at hvol
    · rintro ⟨⟨q', hq', -⟩, -⟩
      exact absurd hq' (by simp)
  | nan =>
    constructor
    · rintro ⟨⟨⟨⟨⟨⟨ht, -⟩, -⟩, -⟩, -⟩, -⟩, -⟩
      simp [JSNum.truthy] at ht
    · rintro ⟨⟨q', hq', -⟩, -⟩
      exact absurd hq' (by simp)

/-- C2: for every fee tier `F`, every volume `V ≥ 0` and every liquidity
`L > 0`, the APR estimator returns exactly
`(F / 1,000,000 × V / L) × 365 × 100`. -/
theorem calculateAPR_formula (f v l : ℚ) (_hv : 0 ≤ v) (hl : 0 < l) :
    calculateAPR (.num f) (.num v) (.num l) =
      .num ((f / 1000000 * v / l) * 365 * 100) := by
  have h6 : (1000000 : ℚ) ≠ 0 := by norm_num
  have hl' : l ≠ 0 := ne_of_gt hl
  simp [calculateAPR, JSNum.div, JSNum.mul, h6, hl']

/-- Witness for `calculateAPR_formula` at `F = 3000`, `V = 1000`,
`L = 2`: the APR is `(3000 / 10^6 × 1000 / 2) × 365 × 100 = 54750`. -/
theorem calculateAPR_formula_witness :
    (0 : ℚ) ≤ 1000 ∧ (0 : ℚ) < 2 ∧
      calculateAPR (.num 3000) (.num 1000) (.num 2) = .num 54750 := by
  refine ⟨by norm_num, by norm_num, ?_⟩
  rw [calculateAPR_formula 3000 1000 2 (by norm_num) (by norm_num)]
  norm_num

/-- C3 (code evaluated at the failing input): on a single fetched page of
three pools of which exactly one is significant, `fetchAllPools` returns
the empty array, not a one-element array containing that pool.  The
significance test at `app.js` line 117 references `isSignificantPool`, a
name the module never defines (the filter is `isPoolSignificant`), so the
first pool of the page throws a `ReferenceError`, the `catch` at line 138
swallows it, and the empty accumulation is returned. -/
theorem fetchAllPools_three_pools_returns_empty :
    (page3.filter isPoolSignificant).length = 1 ∧
    page3.length = 3 ∧
    fetchAllPools [Except.ok page3] LIMIT = some [] := by
  refine ⟨?_, rfl, rfl⟩
  have h1 : isPoolSignificant poolSig = true := by
    norm_num [isPoolSignificant, aprOf, calculateAPR, substLiquidity, poolSig,
      JSNum.ltB, JSNum.leB, JSNum.mul, JSNum.div, JSNum.truthy, JSNum.isNaNB,
      liquidityThreshold, volumeThreshold, aprPercentageThreshold, aprMaxValue]
    decide
  have h2 : isPoolSignificant poolLowTvl = false := by
    norm_num [isPoolSignificant, aprOf, calculateAPR, substLiquidity, poolLowTvl,
      JSNum.ltB, JSNum.leB, JSNum.mul, JSNum.div, JSNum.truthy, JSNum.isNaNB,
      liquidityThreshold, volumeThreshold, aprPercentageThreshold, aprMaxValue]
  have h3 : isPoolSignificant poolZeroVol = false := by
    norm_num [isPoolSignificant, aprOf, calculateAPR, substLiquidity, poolZeroVol,
      JSNum.ltB, JSNum.leB, JSNum.mul, JSNum.div, JSNum.truthy, JSNum.isNaNB,
      liquidityThreshold, volumeThreshold, aprPercentageThreshold, aprMaxValue]
  simp [page3, List.filter, h1, h2, h3]

/-- C4 (code evaluated at the failing input): two fetched pages both contain
the significant pool with identifier `"a"`; the claimed invariant promises
exactly one entry with that identifier in the output, but the run returns
the empty array — the undefined `isSignificantPool` aborts the loop at the
very first pool, so nothing is ever retained. -/
theorem fetchAllPools_duplicate_id_returns_empty :
    isPoolSignificant poolSig = true ∧
    fetchAllPools [Except.ok [poolSig], Except.ok [poolSig]] LIMIT = some [] := by
  constructor
  · norm_num [isPoolSignificant, aprOf, calculateAPR, substLiquidity, poolSig,
      JSNum.ltB, JSNum.leB, JSNum.mul, JSNum.div, JSNum.truthy, JSNum.isNaNB,
      liquidityThreshold, volumeThreshold, aprPercentageThreshold, aprMaxValue]
    decide
  · rfl

/-- Step view of the loop: with the loop condition true, an errored page
request is caught immediately. -/
theorem runFetchLoop_step_err (e : JSException) (rest : List PageResp)
    (s : FetchState) (limit : Nat)
    (hcond : s.fetchMore = true ∧ s.allPools.length < limit) :
    runFetchLoop (.error e :: rest) s limit = some (.caught e, s, rest) := by
  unfold runFetchLoop
  rw [if_pos hcond]

/-- Step view of the loop: with the loop condition true, a page whose
processing throws is caught with the state at the throw. -/
theorem runFetchLoop_step_caught (pools : List Pool) (rest : List PageResp)
    (s : FetchState) (limit : Nat) (e : JSException) (s' : FetchState)
    (hcond : s.fetchMore = true ∧ s.allPools.length < limit)
    (hp : processPools s pools limit = .error (e, s')) :
    runFetchLoop (.ok pools :: rest) s limit = some (.caught e, s', rest) := by
  unfold runFetchLoop
  rw [if_pos hcond]
  simp only [hp]

/-- Step view of the loop: with the loop condition true, a page whose
processing succeeds leads to the next iteration (after the short-page
check). -/
theorem runFetchLoop_step_next (pools : List Pool) (rest : List PageResp)
    (s : FetchState) (limit : Nat) (s' : FetchState)
    (hcond : s.fetchMore = true ∧ s.allPools.length < limit)
    (hp : processPools s pools limit = .ok s') :
    runFetchLoop (.ok pools :: rest) s limit =
      runFetchLoop rest
        (if pools.length < batchSize then { s' with fetchMore := false } else s')
        limit := by
  conv_lhs => rw [runFetchLoop.eq_def]
  rw [if_pos hcond]
  simp only [hp]

/-- Step view of the loop: with the loop condition true, an exhausted
oracle means the run is not covered by the model. -/
theorem runFetchLoop_step_nil (s : FetchState) (limit : Nat)
    (hcond : s.fetchMore = true ∧ s.allPools.length < limit) :
    runFetchLoop [] s limit = none := by
  unfold runFetchLoop
  rw [if_pos hcond]

/-- Step view of the loop: with the loop condition false, the loop exits
normally without consuming the oracle. -/
theorem runFetchLoop_step_stop (oracle : List PageResp) (s : FetchState)
    (limit : Nat) (hcond : ¬(s.fetchMore = true ∧ s.allPools.length < limit)) :
    runFetchLoop oracle s limit = some (.finished, s, oracle) := by
  unfold runFetchLoop
  rw [if_neg hcond]

/-- If a run of the pagination loop ends with a caught exception, the
oracle splits into the consumed prefix and the untouched suffix, and the
untouched suffix has no influence: replacing it by any other responses
reproduces the same caught exception and the same state, and leaves the
replacement unconsumed. -/
theorem runFetchLoop_caught_split (oracle : List PageResp) (s0 : FetchState)
    (limit : Nat) (e : JSException) (s : FetchState) (rest : List PageResp)
    (h : runFetchLoop oracle s0 limit = some (.caught e, s, rest)) :
    ∃ consumed, oracle = consumed ++ rest ∧
      ∀ rest₂, runFetchLoop (consumed ++ rest₂) s0 limit =
        some (.caught e, s, rest₂) := by
  induction oracle generalizing s0 with
  | nil =>
    by_cases hcond : s0.fetchMore = true ∧ s0.allPools.length < limit
    · rw [runFetchLoop_step_nil s0 limit hcond] at h
      exact absurd h (by simp)
    · rw [runFetchLoop_step_stop [] s0 limit hcond] at h
      simp at h
  | cons resp rest' ih =>
    by_cases hcond : s0.fetchMore = true ∧ s0.allPools.length < limit
    · cases resp with
      | error e' =>
        rw [runFetchLoop_step_err e' rest' s0 limit hcond] at h
        simp only [Option.some.injEq, Prod.mk.injEq, LoopOutcome.caught.injEq] at h
        obtain ⟨he, hs, hr⟩ := h
        refine ⟨[Except.error e'], by simp [hr], fun rest₂ => ?_⟩
        exact (runFetchLoop_step_err e' rest₂ s0 limit hcond).trans (by rw [he, hs])
      | ok pools =>
        cases hp : processPools s0 pools limit with
        | error es =>
          obtain ⟨e', sE⟩ := es
          rw [runFetchLoop_step_caught pools rest' s0 limit e' sE hcond hp] at h
          simp only [Option.some.injEq, Prod.mk.injEq, LoopOutcome.caught.injEq] at h
          obtain ⟨he, hs, hr⟩ := h
          refine ⟨[Except.ok pools], by simp [hr], fun rest₂ => ?_⟩
          exact (runFetchLoop_step_caught pools rest₂ s0 limit e' sE hcond hp).trans
            (by rw [he, hs])
        | ok s' =>
          rw [runFetchLoop_step_next pools rest' s0 limit s' hcond hp] at h
          obtain ⟨consumed, hc, hrun⟩ := ih _ h
          refine ⟨Except.ok pools :: consumed, by simp [hc], fun rest₂ => ?_⟩
          rw [List.cons_append,
            runFetchLoop_step_next pools (consumed ++ rest₂) s0 limit s' hcond hp]
          exact hrun rest₂
    · rw [runFetchLoop_step_stop (resp :: rest') s0 limit hcond] at h
      simp at h

/-- C5: if any exception is raised during the pagination loop — a failed
page request or the `ReferenceError` thrown while processing a pool —
then fetching stops (the responses after the exception are never
requested and have no influence on the outcome: no retry), the exception
is not propagated (`fetchAllPools` still returns a list), and the
returned list is exactly the `significantPools` accumulated at the moment
of the exception. -/
theorem fetchAllPools_exception_partial (oracle : List PageResp) (limit : Nat)
    (e : JSException) (s : FetchState) (rest : List PageResp)
    (h : runFetchLoop oracle initFetchState limit = some (.caught e, s, rest)) :
    fetchAllPools oracle limit = some s.significantPools ∧
    ∃ consumed, oracle = consumed ++ rest ∧
      ∀ rest₂, runFetchLoop (consumed ++ rest₂) initFetchState limit =
        some (.caught e, s, rest₂) :=
  ⟨by simp [fetchAllPools, h],
   runFetchLoop_caught_split oracle initFetchState limit e s rest h⟩

/-- Witness for `fetchAllPools_exception_partial`: a network error on the
very first page request; the run catches it and returns the (empty)
accumulation. -/
theorem fetchAllPools_exception_partial_witness :
    fetchAllPools [Except.error (JSException.error "network down")] 1 =
      some initFetchState.significantPools ∧
    ∃ consumed,
      [(Except.error (JSException.error "network down") : PageResp)] =
        consumed ++ ([] : List PageResp) ∧
      ∀ rest₂, runFetchLoop (consumed ++ rest₂) initFetchState 1 =
        some (.caught (JSException.error "network down"), initFetchState, rest₂) :=
  fetchAllPools_exception_partial _ 1 _ _ _ rfl

/-- C6 (code evaluated at the failing input): the startup check throws even
when all three required configuration variables are present.  `for`/`in`
iterates over the indices of `req_env`, so the first iteration looks up
`process.env["0"]`, which is unset, and the loop throws
`Missing required environment variable: 0` — the claim expects no raise on
a complete configuration. -/
theorem checkRequiredEnv_raises_on_full_environ :
    checkRequiredEnv fullEnviron =
      .error (.error "Missing required environment variable: 0") := by
  rfl

/-- C7: cache load returns `null` — an explicit no-data signal, distinct
from an empty list — when the cache file does not exist; any read or parse
error is caught and also yields `null`; when the file exists and parses,
its contents are returned as-is. -/
theorem loadFromCache_no_data_signal :
    loadFromCache none = JValue.jnull ∧
    (∀ e : JSException, loadFromCache (some (.error e)) = JValue.jnull) ∧
    JValue.jnull ≠ JValue.jarr [] ∧
    (∀ v : JValue, loadFromCache (some (.ok v)) = v) :=
  ⟨rfl, fun _ => rfl, fun h => JValue.noConfusion h, fun _ => rfl⟩

/-- A finite token decodes back from its serialization unchanged. -/
theorem decodeToken_encodeToken (t : Token) (h : tokenFinite t = true) :
    decodeToken (encodeToken t) = some t := by
  obtain ⟨i, sy, n, d⟩ := t
  cases d <;> simp_all [tokenFinite, JSNum.finite, encodeToken, decodeToken,
    encodeJSNum, decodeJSNum]

/-- A pool with finite numeric fields decodes back from its serialization
unchanged. -/
theorem decodePool_encodePool (p : Pool) (h : poolFinite p = true) :
    decodePool (encodePool p) = some p := by
  obtain ⟨i, t0, t1, ft, lq, vol, tx, tvl⟩ := p
  simp only [poolFinite, Bool.and_eq_true] at h
  obtain ⟨⟨⟨⟨⟨⟨h0, h1⟩, hft⟩, hlq⟩, hvol⟩, htx⟩, htvl⟩ := h
  rw [encodePool]
  rw [decodePool.eq_def]
  simp only [decodeToken_encodeToken _ h0, decodeToken_encodeToken _ h1]
  cases ft <;> cases lq <;> cases vol <;> cases tx <;> cases tvl <;>
    simp_all [JSNum.finite, encodeJSNum, decodeJSNum]

/-- C8: cache round-trip — saving any list of pool records (all of whose
numeric fields are finite, i.e. up to the serialization of `NaN` and the
infinities) and loading it back reproduces the same records field-for-field
and in order; and each save fully overwrites the prior cache contents,
whatever they were (no append, no merge). -/
theorem cache_roundtrip (pools : List Pool) (fs fsPrior : CacheFS)
    (h : ∀ p ∈ pools, poolFinite p = true) :
    decodePoolList (loadFromCache (saveToCache (pools.map encodePool) fs)) =
      some pools ∧
    saveToCache (pools.map encodePool) fs =
      saveToCache (pools.map encodePool) fsPrior := by
  refine ⟨?_, rfl⟩
  show decodePoolList (.jarr (pools.map encodePool)) = some pools
  rw [decodePoolList]
  induction pools with
  | nil => rfl
  | cons p ps ih =>
    have hp : poolFinite p = true := h p (List.mem_cons_self p ps)
    have hps : ∀ q ∈ ps, poolFinite q = true :=
      fun q hq => h q (List.mem_cons_of_mem p hq)
    simp [decodePools, decodePool_encodePool p hp, ih hps]

/-- Witness for `cache_roundtrip`: a one-element list of finite pools,
saved over a nonexistent file and, for the overwrite conjunct, over a
file holding `null`. -/
theorem cache_roundtrip_witness :
    (∀ p ∈ [poolSig], poolFinite p = true) ∧
    (decodePoolList (loadFromCache (saveToCache ([poolSig].map encodePool) none)) =
        some [poolSig] ∧
      saveToCache ([poolSig].map encodePool) none =
        saveToCache ([poolSig].map encodePool) (some (.ok .jnull))) :=
  ⟨by decide, cache_roundtrip [poolSig] none (some (.ok .jnull)) (by decide)⟩

/-- C9 (counterexample): applying the significance filter to a `null`
cache entry does not return `false` without raising — the evaluation
throws. -/
theorem isPoolSignificant_null_not_false :
    isPoolSignificantJS none ≠ .ok false :=
  fun h => Except.noConfusion h

/-- C9 (amended): applying the significance filter to a `null` cache entry
raises a `TypeError` — the function's first statement reads a property of
its argument — so the filter-on-load step of the cache path does not
silently drop `null` entries; the throw propagates to the orchestrator's
surrounding `catch` instead. -/
theorem isPoolSignificant_null_raises :
    isPoolSignificantJS none =
      .error (.typeError
        "Cannot read properties of null (reading 'totalValueLockedUSD')") :=
  rfl

/-- C10: `formatBigNumber` applied to the number `0` returns `"N/A"` —
zero fails the falsy guard at `app.js` line 35 — and not `"0.00"`. -/
theorem formatBigNumber_zero_NA :
    formatBigNumber (.num 0) 2 = "N/A" ∧ formatBigNumber (.num 0) 2 ≠ "0.00" :=
  ⟨rfl, by decide⟩
